import Mathlib

/-!
Verification of the watermark compositing / coordinate-mapping engine and the
batch export pipeline of `src/main.py` (a PyQt5 + PIL photo-watermark tool).

The Python source is shallowly embedded: Python `int` becomes `ℤ` (or `ℕ` for
sizes and counts), Python float arithmetic is idealised as `ℚ` (every concrete
scenario evaluated below is exactly representable in binary floating point, and
every universal statement proved about the float-based code is independent of
rounding), `int(x)` on a nonnegative value is the floor, strings stay `String`,
and the per-file `try/except` bodies of the export loop are abstracted as an
`Except String Unit` outcome per job (decode/encode live on the filesystem).
-/

/-- Python `int(q)` applied to a real value: truncation toward zero. -/
def pyint (q : ℚ) : ℤ := if 0 ≤ q then ⌊q⌋ else ⌈q⌉

/-! Section: Font Resolver (`get_font_for_text`, `WatermarkApp.get_pil_font`)

Both copies of the resolver in the source build the same search order and the
same per-family variant table; they are embedded once.  The filesystem
existence check (`os.path.exists`) is not modelled; `attempted_families` lists
the families the loop would attempt (those whose selected variant has a file
name), in order. -/

/-- Predicate `has_cjk` from `get_font_for_text` (lines 69-74): true iff some codepoint
lies in CJK Unified Ideographs, Extension A, or Extension B. -/
def has_cjk (s : String) : Bool :=
  s.data.any fun ch =>
    decide ((0x4E00 ≤ ch.toNat ∧ ch.toNat ≤ 0x9FFF) ∨
            (0x3400 ≤ ch.toNat ∧ ch.toNat ≤ 0x4DBF) ∨
            (0x20000 ≤ ch.toNat ∧ ch.toNat ≤ 0x2A6DF))

/-- The fixed CJK-capable family list from line 78 of the source. -/
def cjk_fallback : List String := ["Microsoft YaHei", "SimSun", "SimHei"]

/-- Search-order construction from lines 76-80 of the source:
`search_order = []`; if the text has CJK, extend with the CJK list; then
`search_order.insert(0, family)` when the family is not already present. -/
def build_search_order (family text : String) : List String :=
  let base := if has_cjk text then cjk_fallback else []
  if family ∈ base then base else family :: base

/-- The family → (regular, bold, italic, bold-italic) file table (lines 51-57). -/
def font_mapping (fam : String) :
    Option String × Option String × Option String × Option String :=
  if fam = "Microsoft YaHei" then (some ("msyh.ttc"), some ("msyhbd.ttc"), none, none)
  else if fam = "SimSun" then (some ("simsun.ttc"), none, none, none)
  else if fam = "SimHei" then (some ("simhei.ttf"), none, none, none)
  else if fam = "Arial" then
    (some ("arial.ttf"), some ("arialbd.ttf"), some ("ariali.ttf"), some ("arialbi.ttf"))
  else if fam = "Times New Roman" then
    (some ("times.ttf"), some ("timesbd.ttf"), some ("timesi.ttf"), some ("timesbi.ttf"))
  else (none, none, none, none)

/-- Function `select_variant` (lines 59-67): pick the variant file plus real-style flags. -/
def select_variant (is_bold is_italic : Bool) (fam : String) :
    Option String × Bool × Bool :=
  let m := font_mapping fam
  if is_bold && is_italic && m.2.2.2.isSome then (m.2.2.2, true, true)
  else if is_bold && m.2.1.isSome then (m.2.1, true, false)
  else if is_italic && m.2.2.1.isSome then (m.2.2.1, false, true)
  else (m.1, false, false)

/-- The families the resolver loop (lines 82-92) actually attempts, in order:
those of the search order whose selected variant has a file name. -/
def attempted_families (family text : String) (is_bold is_italic : Bool) :
    List String :=
  (build_search_order family text).filter
    fun fam => ((select_variant is_bold is_italic fam).1).isSome

/-! Section: Position Mapper. -/

/-- The relevant watermark settings consumed by the position functions:
the anchor key string and the optional custom preview-space position. -/
structure WatermarkSettings where
  position : String
  custom_position : Option (ℤ × ℤ)

/-- Function `ExportThread._preview_to_image_coords` (lines 262-286).  The preview
viewport is hard-coded to 400×300 in the export thread.  A zero-size image
raises `ZeroDivisionError`, caught by the bare `except` → `(20, 20)`. -/
def ExportThread.preview_to_image_coords (p : ℤ × ℤ)
    (image_size overlay_size : ℕ × ℕ) : ℤ × ℤ :=
  if image_size.1 = 0 ∨ image_size.2 = 0 then (20, 20)
  else
    (max 0 (min (pyint ((p.1 : ℚ) /
        min ((400 : ℚ) / image_size.1) ((300 : ℚ) / image_size.2)))
        ((image_size.1 : ℤ) - overlay_size.1)),
     max 0 (min (pyint ((p.2 : ℚ) /
        min ((400 : ℚ) / image_size.1) ((300 : ℚ) / image_size.2)))
        ((image_size.2 : ℤ) - overlay_size.2)))

/-- Function `WatermarkApp.preview_to_image_coords` (lines 977-1000).  The viewport is
the *live* size of `preview_label` (passed here as a parameter).  A zero-size
image or viewport raises `ZeroDivisionError` (the latter via `scale = 0.0`),
caught by the bare `except` → `(20, 20)`. -/
def WatermarkApp.preview_to_image_coords (viewport : ℕ × ℕ) (p : ℤ × ℤ)
    (image_size overlay_size : ℕ × ℕ) : ℤ × ℤ :=
  if image_size.1 = 0 ∨ image_size.2 = 0 ∨ viewport.1 = 0 ∨ viewport.2 = 0 then
    (20, 20)
  else
    (max 0 (min (pyint ((p.1 : ℚ) /
        min ((viewport.1 : ℚ) / image_size.1) ((viewport.2 : ℚ) / image_size.2)))
        ((image_size.1 : ℤ) - overlay_size.1)),
     max 0 (min (pyint ((p.2 : ℚ) /
        min ((viewport.1 : ℚ) / image_size.1) ((viewport.2 : ℚ) / image_size.2)))
        ((image_size.2 : ℤ) - overlay_size.2)))

/-- Function `ExportThread._calc_pos_by_setting` (lines 232-260): custom position (if
any) is mapped through the export-side coordinate conversion, otherwise the
anchor key selects a margin-20 formula; the fall-through default is the
bottom-right formula.  Python `//` is floor division (`Int.fdiv`). -/
def ExportThread.calc_pos_by_setting (ws : WatermarkSettings)
    (image_size overlay_size : ℕ × ℕ) : ℤ × ℤ :=
  match ws.custom_position with
  | some p => ExportThread.preview_to_image_coords p image_size overlay_size
  | none =>
    let img_w : ℤ := image_size.1
    let img_h : ℤ := image_size.2
    let w : ℤ := overlay_size.1
    let h : ℤ := overlay_size.2
    let margin : ℤ := 20
    if ws.position = "top_left" then (margin, margin)
    else if ws.position = "top_center" then ((img_w - w).fdiv 2, margin)
    else if ws.position = "top_right" then (img_w - w - margin, margin)
    else if ws.position = "middle_left" then (margin, (img_h - h).fdiv 2)
    else if ws.position = "center" then ((img_w - w).fdiv 2, (img_h - h).fdiv 2)
    else if ws.position = "middle_right" then (img_w - w - margin, (img_h - h).fdiv 2)
    else if ws.position = "bottom_left" then (margin, img_h - h - margin)
    else if ws.position = "bottom_center" then ((img_w - w).fdiv 2, img_h - h - margin)
    else (img_w - w - margin, img_h - h - margin)

/-- Function `WatermarkApp.get_watermark_position` (lines 943-975): same anchor
formulas, but the custom position goes through the app-side conversion with
the live viewport, and the fall-through default is `(margin, margin)`. -/
def WatermarkApp.get_watermark_position (viewport : ℕ × ℕ)
    (ws : WatermarkSettings) (image_size overlay_size : ℕ × ℕ) : ℤ × ℤ :=
  match ws.custom_position with
  | some p => WatermarkApp.preview_to_image_coords viewport p image_size overlay_size
  | none =>
    let img_w : ℤ := image_size.1
    let img_h : ℤ := image_size.2
    let w : ℤ := overlay_size.1
    let h : ℤ := overlay_size.2
    let margin : ℤ := 20
    if ws.position = "top_left" then (margin, margin)
    else if ws.position = "top_center" then ((img_w - w).fdiv 2, margin)
    else if ws.position = "top_right" then (img_w - w - margin, margin)
    else if ws.position = "middle_left" then (margin, (img_h - h).fdiv 2)
    else if ws.position = "center" then ((img_w - w).fdiv 2, (img_h - h).fdiv 2)
    else if ws.position = "middle_right" then (img_w - w - margin, (img_h - h).fdiv 2)
    else if ws.position = "bottom_left" then (margin, img_h - h - margin)
    else if ws.position = "bottom_center" then ((img_w - w).fdiv 2, img_h - h - margin)
    else if ws.position = "bottom_right" then (img_w - w - margin, img_h - h - margin)
    else (margin, margin)

/-- The nine anchor names, for stating spec-side formulas. -/
inductive Anchor
  | top_left | top_center | top_right
  | middle_left | center | middle_right
  | bottom_left | bottom_center | bottom_right
deriving DecidableEq

/-- The string key of an anchor as used in the settings dictionary. -/
def Anchor.key : Anchor → String
  | .top_left => "top_left"
  | .top_center => "top_center"
  | .top_right => "top_right"
  | .middle_left => "middle_left"
  | .center => "center"
  | .middle_right => "middle_right"
  | .bottom_left => "bottom_left"
  | .bottom_center => "bottom_center"
  | .bottom_right => "bottom_right"

/-- The spec's closed-form anchor formulas (§4.2), with `/` read as floor
division since positions are integer pixels.  This definition follows the
spec's words and is compared against the code's two position functions. -/
def spec_anchor_pos (W H w h m : ℤ) : Anchor → ℤ × ℤ
  | .top_left => (m, m)
  | .top_center => ((W - w).fdiv 2, m)
  | .top_right => (W - w - m, m)
  | .middle_left => (m, (H - h).fdiv 2)
  | .center => ((W - w).fdiv 2, (H - h).fdiv 2)
  | .middle_right => (W - w - m, (H - h).fdiv 2)
  | .bottom_left => (m, H - h - m)
  | .bottom_center => ((W - w).fdiv 2, H - h - m)
  | .bottom_right => (W - w - m, H - h - m)

/-! Section: Compositor, text draw color and draw plan. -/

/-- Function `WatermarkApp.get_text_color` (lines 1002-1007): final draw color is the
base RGB with alpha `int(255 * opacity / 100)`.  The float quotient is
truncated by Python `int()`; for nonnegative `opacity` this is `ℕ` floor
division (the quotient is at least 1/20 away from any other integer, so IEEE
double rounding cannot change the truncation). -/
def get_text_color (base_color : ℕ × ℕ × ℕ × ℕ) (opacity : ℕ) : ℕ × ℕ × ℕ × ℕ :=
  (base_color.1, base_color.2.1, base_color.2.2.1, 255 * opacity / 100)

/-- The duplicate of the same color computation in
`ExportThread.add_watermark_to_image` (lines 213-214). -/
def ExportThread.text_color (base_color : ℕ × ℕ × ℕ × ℕ) (opacity : ℕ) :
    ℕ × ℕ × ℕ × ℕ :=
  (base_color.1, base_color.2.1, base_color.2.2.1, 255 * opacity / 100)

/-- One `draw.text` call: position and RGBA fill. -/
structure DrawOp where
  pos : ℤ × ℤ
  fill : ℕ × ℕ × ℕ × ℕ
deriving DecidableEq

/-- The four-offset pseudo-bold stroke at a base position (lines 223-224). -/
def pseudo_bold_ops (pos : ℤ × ℤ) (color : ℕ × ℕ × ℕ × ℕ) : List DrawOp :=
  [⟨(pos.1, pos.2), color⟩, ⟨(pos.1 + 1, pos.2), color⟩,
   ⟨(pos.1, pos.2 + 1), color⟩, ⟨(pos.1 + 1, pos.2 + 1), color⟩]

/-- The main glyph pass of the text compositor (lines 221-226 of
`ExportThread.add_watermark_to_image`, identically lines 841-846 of
`WatermarkApp.add_text_watermark`): four offset draws when bold is requested
but the resolved font has no real bold, otherwise a single draw. -/
def text_main_draw_ops (pos : ℤ × ℤ) (color : ℕ × ℕ × ℕ × ℕ)
    (is_bold has_real_bold : Bool) : List DrawOp :=
  if is_bold && !has_real_bold then pseudo_bold_ops pos color
  else [⟨pos, color⟩]

/-- The full text draw plan (lines 216-226): the optional shadow pass at
`(x+2, y+2)` with color `(0,0,0, alpha // 2)`, then the main pass. -/
def text_draw_ops (pos : ℤ × ℤ) (color : ℕ × ℕ × ℕ × ℕ)
    (has_shadow is_bold has_real_bold : Bool) : List DrawOp :=
  (if has_shadow then [⟨(pos.1 + 2, pos.2 + 2), (0, 0, 0, color.2.2.2 / 2)⟩]
   else []) ++ text_main_draw_ops pos color is_bold has_real_bold

/-! Section: Export Coordinator (`ExportThread.run`, lines 112-151)

Each job is an input file abstracted to its display name (`os.path.basename`)
and the outcome of its fallible body (decode → composite → encode/write):
`Except.ok ()` when every step succeeds, `Except.error msg` when some step
raises, `msg` being Python's `str(e)`.  The observable behaviour is recorded
as an event trace: progress signals, successful writes, the final signal. -/

structure Job where
  filename : String
  outcome : Except String Unit

/-- Observable events of one batch run. -/
inductive Event
  | progress (current total : ℕ) (filename : String)
  | write (filename : String)
  | finishedSignal (success_count error_count : ℕ) (errors : List String)
deriving DecidableEq

/-- The aggregate a batch produces, plus its event trace. -/
structure RunState where
  success_count : ℕ
  error_count : ℕ
  errors : List String
  trace : List Event
deriving DecidableEq

/-- The per-file loop of `ExportThread.run` (lines 117-148), `i` being the
0-based index of the first remaining job and `total` the batch size.  The body
first emits `progress(i+1, total, basename)` and then runs the fallible work;
the whole body sits in a `try` whose `except` appends `"basename: msg"` and
continues, so one bad file never stops the recursion. -/
def run_loop (total : ℕ) : ℕ → List Job → RunState
  | _, [] => ⟨0, 0, [], []⟩
  | i, j :: rest =>
    let r := run_loop total (i + 1) rest
    match j.outcome with
    | .ok _ =>
      ⟨r.success_count + 1, r.error_count, r.errors,
        .progress (i + 1) total j.filename :: .write j.filename :: r.trace⟩
    | .error msg =>
      ⟨r.success_count, r.error_count + 1,
        (j.filename ++ ": " ++ msg) :: r.errors,
        .progress (i + 1) total j.filename :: r.trace⟩

/-- Function `ExportThread.run` (lines 112-151): run the loop over the whole batch and
emit the `finished(success_count, error_count, errors)` signal at the end. -/
def ExportThread.run (jobs : List Job) : RunState :=
  let r := run_loop jobs.length 0 jobs
  ⟨r.success_count, r.error_count, r.errors,
    r.trace ++ [.finishedSignal r.success_count r.error_count r.errors]⟩

/-- The error entry a failed job contributes (`f"{basename}: {str(e)}"`,
line 148), `none` for a successful job. -/
def job_error_entry (j : Job) : Option String :=
  match j.outcome with
  | .ok _ => none
  | .error msg => some (j.filename ++ ": " ++ msg)

/-- The progress events the loop is expected to emit for the remaining jobs,
starting at 0-based index `i` (claim-side description, compared against the
trace produced by `run_loop`). -/
def expected_progress (total : ℕ) : ℕ → List Job → List Event
  | _, [] => []
  | i, j :: rest => .progress (i + 1) total j.filename :: expected_progress total (i + 1) rest

/-- Is an event a progress notification? -/
def Event.isProgress : Event → Bool
  | .progress _ _ _ => true
  | _ => false

/-! Section: validation in `WatermarkApp.export_images` (lines 1213-1248).

Validation happens on the interactive side before the export thread starts:
empty list, empty output folder, and the source-directory check
`os.path.dirname(os.path.abspath(path)) == os.path.abspath(output_folder)`.
Paths are modelled in canonical form: each input carries the canonicalized
directory that `dirname(abspath(.))` yields, and `output_folder` is compared
after the same canonicalization. -/

structure InputFile where
  filename : String
  dir : String
  outcome : Except String Unit

/-- Outcome of pressing the export button: either a validation warning (no
thread is created, nothing is written) or a started batch with its result. -/
inductive ExportOutcome
  | validationError (msg : String)
  | started (result : RunState)

/-- Function `WatermarkApp.export_images`: the three validation gates in source order,
then the batch.  On the first input whose directory equals the output folder a
single warning is shown and the method returns. -/
def WatermarkApp.export_images (inputs : List InputFile) (output_folder : String) :
    ExportOutcome :=
  if inputs.isEmpty then .validationError ("please import images first")
  else if output_folder = "" then .validationError ("please choose an output folder")
  else if inputs.any fun f => f.dir = output_folder then
    .validationError ("cannot export into a source folder")
  else .started (ExportThread.run (inputs.map fun f => ⟨f.filename, f.outcome⟩))

/-- The files a button press wrote: none for a validation error, the `write`
events of the trace otherwise. -/
def written_files : ExportOutcome → List String
  | .validationError _ => []
  | .started r => r.trace.filterMap fun e =>
      match e with
      | .write f => some f
      | _ => none

/-! Section: output file naming (`ExportThread.generate_output_filename`, 288-309). -/

/-- Zero-based index of the last occurrence of `c`, or `-1` if absent
(Python `str.rfind`). -/
def rfindChar (c : Char) : List Char → ℤ
  | [] => -1
  | x :: xs =>
    let r := rfindChar c xs
    if 0 ≤ r then r + 1 else if x = c then 0 else -1

/-- Python `os.path.splitext`: split at the last dot, provided the dot lies after the
last path separator and at least one character strictly between the separator
and the dot is not itself a dot (so dotfiles keep their name).  Both `/` and
`\` are accepted as separators; the Windows drive-colon special case is not
modelled (no claim exercises it). -/
def splitext (s : String) : String × String :=
  let l := s.data
  let sepIdx : ℤ := max (rfindChar '/' l) (rfindChar '\\' l)
  let dotIdx : ℤ := rfindChar '.' l
  if sepIdx < dotIdx ∧
      (List.range l.length).any
        (fun k => decide (sepIdx < (k : ℤ)) && decide ((k : ℤ) < dotIdx) &&
          decide (l.get? k ≠ some '.')) then
    (⟨l.take dotIdx.toNat⟩, ⟨l.drop dotIdx.toNat⟩)
  else (s, "")

/-- Python `os.path.basename`: everything after the last path separator. -/
def basename (s : String) : String :=
  let l := s.data
  let sepIdx : ℤ := max (rfindChar '/' l) (rfindChar '\\' l)
  ⟨l.drop (sepIdx + 1).toNat⟩

/-- Python `str.lower()` restricted to ASCII letters (extensions are ASCII). -/
def lowerStr (s : String) : String := ⟨s.data.map Char.toLower⟩

/-- The extension adjustment of lines 293-298: target `JPEG` remaps
`.png/.bmp/.tiff/.tif` to `.jpg` (other extensions, e.g. `.jpeg`, pass
through); target `PNG` forces `.png`; any other format string leaves the
extension unchanged (the UI only offers JPEG and PNG). -/
def map_ext (format ext : String) : String :=
  if format = "JPEG" then
    if ext = ".png" ∨ ext = ".bmp" ∨ ext = ".tiff" ∨ ext = ".tif" then ".jpg" else ext
  else if format = "PNG" then ".png"
  else ext

/-- Function `ExportThread.generate_output_filename` (lines 288-309): base name is the
basename without extension, the extension is lower-cased and format-mapped,
and the naming rule (the combo-box labels, literally compared) arranges the
pieces.  `pre`/`suf` are the affix strings from the two line edits. -/
def generate_output_filename (format naming_rule pre suf original_path : String) :
    String :=
  let base_name := (splitext (basename original_path)).1
  let ext := map_ext format (lowerStr (splitext original_path).2)
  if naming_rule = "添加前缀" then pre ++ base_name ++ ext
  else if naming_rule = "添加后缀" then base_name ++ suf ++ ext
  else base_name ++ ext

/-! Section: helper lemmas shared by the claim theorems. -/

/-- Helper: floor-halving a gap of at least 40 keeps at least 20 pixels on
both sides. -/
theorem fdiv_two_between (W w : ℕ) (h : w + 40 ≤ W) :
    20 ≤ ((W : ℤ) - w).fdiv 2 ∧ ((W : ℤ) - w).fdiv 2 ≤ (W : ℤ) - w - 20 := by
  rw [Int.fdiv_eq_ediv _ (by norm_num)]
  omega

/-- Helper: counts, error entries and progress events of the export loop,
for every starting index. -/
theorem run_loop_spec (total : ℕ) (jobs : List Job) : ∀ i : ℕ,
    (run_loop total i jobs).success_count + (run_loop total i jobs).error_count
        = jobs.length ∧
    (run_loop total i jobs).errors = jobs.filterMap job_error_entry ∧
    (run_loop total i jobs).trace.filter Event.isProgress
        = expected_progress total i jobs := by
  induction jobs with
  | nil => intro i; simp [run_loop, expected_progress]
  | cons j rest ih =>
    intro i
    obtain ⟨h1, h2, h3⟩ := ih (i + 1)
    cases hj : j.outcome with
    | ok v =>
      simp [run_loop, hj, job_error_entry, expected_progress, Event.isProgress,
        List.filter_cons, h1, h2, h3]
      omega
    | error msg =>
      simp [run_loop, hj, job_error_entry, expected_progress, Event.isProgress,
        List.filter_cons, h1, h2, h3]
      omega

/-- C2 (code_bug): the spec and the resolver's own docstring ("prefer Chinese
fonts") say the CJK-capable list is tried before the requested family, but
`search_order.insert(0, family)` puts the requested family first: for CJK
sample text with requested family Arial, the search order starts with Arial,
the first attempted (existence-checked) family is Arial, and Arial is not in
the CJK fallback list. -/
theorem C2_requested_family_tried_first :
    has_cjk ("水印文字") = true ∧
    build_search_order ("Arial") ("水印文字")
      = ["Arial", "Microsoft YaHei", "SimSun", "SimHei"] ∧
    (attempted_families ("Arial") ("水印文字") false false).head? = some ("Arial") ∧
    "Arial" ∉ cjk_fallback := by
  refine ⟨rfl, by decide, by decide, by decide⟩

/-- C9: the four-offset pseudo-bold stroke is issued iff bold is requested and
the resolved font has no real bold; in every other case the main glyph pass is
exactly one draw at the base position with the final color, so a real bold
never also triggers the stroke. -/
theorem C9_pseudo_bold_iff (pos : ℤ × ℤ) (color : ℕ × ℕ × ℕ × ℕ)
    (is_bold has_real_bold : Bool) :
    (text_main_draw_ops pos color is_bold has_real_bold = pseudo_bold_ops pos color
        ↔ is_bold = true ∧ has_real_bold = false) ∧
    ((is_bold = true ∧ has_real_bold = false) ∨
      text_main_draw_ops pos color is_bold has_real_bold = [⟨pos, color⟩]) := by
  cases is_bold <;> cases has_real_bold <;>
    simp [text_main_draw_ops, pseudo_bold_ops]

/-- C3 counterexample: with only `w < W` (here 29 < 50) and margin 20 the
claimed containment fails: the top_left anchor yields x = 20 while the claimed
upper bound is W − w − m = 1. -/
theorem C3_counterexample :
    (29 : ℕ) < 50 ∧
    ExportThread.calc_pos_by_setting ⟨"top_left", none⟩ (50, 50) (29, 29) = (20, 20) ∧
    ¬((ExportThread.calc_pos_by_setting ⟨"top_left", none⟩ (50, 50) (29, 29)).1
        ≤ (50 : ℤ) - 29 - 20) := by
  refine ⟨by norm_num, by decide, by decide⟩

/-- C3 (amended): for each of the nine named anchors both position functions
compute exactly the spec's closed-form formulas (floor division, margin 20);
the result lies in `[20, W−w−20] × [20, H−h−20]` provided additionally
`w + 40 ≤ W` and `h + 40 ≤ H`; an unrecognized anchor key yields the
bottom_right formula in the export path but `(20, 20)` in the preview-side
helper; and bottom_right at 800×600 with overlay 100×30 is `(680, 550)`. -/
theorem C3_anchor_positions :
    (∀ (W H w h : ℕ) (a : Anchor),
        ExportThread.calc_pos_by_setting ⟨a.key, none⟩ (W, H) (w, h)
          = spec_anchor_pos W H w h 20 a ∧
        ∀ vp : ℕ × ℕ,
          WatermarkApp.get_watermark_position vp ⟨a.key, none⟩ (W, H) (w, h)
            = spec_anchor_pos W H w h 20 a) ∧
    (∀ (W H w h : ℕ) (a : Anchor), w + 40 ≤ W → h + 40 ≤ H →
        20 ≤ (spec_anchor_pos W H w h 20 a).1 ∧
        (spec_anchor_pos W H w h 20 a).1 ≤ (W : ℤ) - w - 20 ∧
        20 ≤ (spec_anchor_pos W H w h 20 a).2 ∧
        (spec_anchor_pos W H w h 20 a).2 ≤ (H : ℤ) - h - 20) ∧
    (∀ (W H w h : ℕ) (key : String),
        key ∉ ["top_left", "top_center", "top_right", "middle_left", "center",
               "middle_right", "bottom_left", "bottom_center", "bottom_right"] →
        ExportThread.calc_pos_by_setting ⟨key, none⟩ (W, H) (w, h)
          = ((W : ℤ) - w - 20, (H : ℤ) - h - 20) ∧
        ∀ vp : ℕ × ℕ,
          WatermarkApp.get_watermark_position vp ⟨key, none⟩ (W, H) (w, h)
            = (20, 20)) ∧
    ExportThread.calc_pos_by_setting ⟨"bottom_right", none⟩ (800, 600) (100, 30)
      = (680, 550) := by
  refine ⟨?_, ?_, ?_, by decide⟩
  · intro W H w h a
    cases a <;> exact ⟨rfl, fun vp => rfl⟩
  · intro W H w h a hW hH
    obtain ⟨c1, c2⟩ := fdiv_two_between W w hW
    obtain ⟨d1, d2⟩ := fdiv_two_between H h hH
    cases a <;> simp only [spec_anchor_pos] <;>
      refine ⟨?_, ?_, ?_, ?_⟩ <;> first
        | exact c1
        | exact c2
        | exact d1
        | exact d2
        | omega
  · intro W H w h key hkey
    simp only [List.mem_cons, List.not_mem_nil, or_false, not_or] at hkey
    obtain ⟨k1, k2, k3, k4, k5, k6, k7, k8, k9⟩ := hkey
    constructor
    · simp [ExportThread.calc_pos_by_setting, k1, k2, k3, k4, k5, k6, k7, k8]
    · intro vp
      simp [WatermarkApp.get_watermark_position, k1, k2, k3, k4, k5, k6, k7, k8, k9]

/-- C3 witness: the amended theorem instantiated at concrete inputs — the
center anchor in an 800×600 image with a 100×30 overlay is inside the margin
box, and an unrecognized key takes the two default branches. -/
theorem C3_anchor_positions_witness :
    (20 ≤ (spec_anchor_pos 800 600 100 30 20 Anchor.center).1 ∧
     (spec_anchor_pos 800 600 100 30 20 Anchor.center).1 ≤ (800 : ℤ) - 100 - 20 ∧
     20 ≤ (spec_anchor_pos 800 600 100 30 20 Anchor.center).2 ∧
     (spec_anchor_pos 800 600 100 30 20 Anchor.center).2 ≤ (600 : ℤ) - 30 - 20) ∧
    ExportThread.calc_pos_by_setting ⟨"diagonal", none⟩ (800, 600) (100, 30)
      = ((800 : ℤ) - 100 - 20, (600 : ℤ) - 30 - 20) ∧
    WatermarkApp.get_watermark_position (400, 300) ⟨"diagonal", none⟩ (800, 600) (100, 30)
      = (20, 20) :=
  ⟨C3_anchor_positions.2.1 800 600 100 30 Anchor.center (by norm_num) (by norm_num),
   (C3_anchor_positions.2.2.1 800 600 100 30 ("diagonal") (by decide)).1,
   (C3_anchor_positions.2.2.1 800 600 100 30 ("diagonal") (by decide)).2 (400, 300)⟩

/-- C4 counterexample: when the overlay is larger than the image (overlay
20×20 on a 10×10 image) the clamp floors at 0, which violates the claimed
bound `x ≤ image_w − overlay_w = −10`; the claim as stated quantifies over
every overlay size. -/
theorem C4_counterexample :
    ExportThread.preview_to_image_coords (0, 0) (10, 10) (20, 20) = (0, 0) ∧
    ¬((ExportThread.preview_to_image_coords (0, 0) (10, 10) (20, 20)).1
        ≤ (10 : ℤ) - 20) := by
  have h : ExportThread.preview_to_image_coords (0, 0) (10, 10) (20, 20) = (0, 0) := by
    norm_num [ExportThread.preview_to_image_coords, pyint, min_def, max_def]
  exact ⟨h, by rw [h]; norm_num⟩

/-- C4 (amended): for every preview point, the export-side conversion divides
by `scale = min(400/image_w, 300/image_h)` and clamps, so whenever the overlay
fits the image (`overlay_w ≤ image_w`, `overlay_h ≤ image_h`) the result lies
in `[0, image_w − overlay_w] × [0, image_h − overlay_h]`; a zero-size image
(the degenerate input — the viewport is the constant 400×300) yields the fixed
default `(20, 20)`; and preview point `(100,100)` with image 1600×1200 and
overlay 50×50 maps to `(400, 400)`. -/
theorem C4_preview_to_image_bounds :
    (∀ (p : ℤ × ℤ) (iw ih ow oh : ℕ), iw ≠ 0 → ih ≠ 0 → ow ≤ iw → oh ≤ ih →
        0 ≤ (ExportThread.preview_to_image_coords p (iw, ih) (ow, oh)).1 ∧
        (ExportThread.preview_to_image_coords p (iw, ih) (ow, oh)).1 ≤ (iw : ℤ) - ow ∧
        0 ≤ (ExportThread.preview_to_image_coords p (iw, ih) (ow, oh)).2 ∧
        (ExportThread.preview_to_image_coords p (iw, ih) (ow, oh)).2 ≤ (ih : ℤ) - oh) ∧
    (∀ (p : ℤ × ℤ) (iw ih ow oh : ℕ), iw = 0 ∨ ih = 0 →
        ExportThread.preview_to_image_coords p (iw, ih) (ow, oh) = (20, 20)) ∧
    ExportThread.preview_to_image_coords (100, 100) (1600, 1200) (50, 50)
      = (400, 400) := by
  refine ⟨?_, ?_, ?_⟩
  · intro p iw ih ow oh hiw hih how hoh
    have hM1 : (0 : ℤ) ≤ (iw : ℤ) - ow := by omega
    have hM2 : (0 : ℤ) ≤ (ih : ℤ) - oh := by omega
    unfold ExportThread.preview_to_image_coords
    rw [if_neg (by simp [hiw, hih])]
    exact ⟨le_max_left _ _, max_le hM1 (min_le_right _ _),
           le_max_left _ _, max_le hM2 (min_le_right _ _)⟩
  · intro p iw ih ow oh hdeg
    unfold ExportThread.preview_to_image_coords
    rw [if_pos (by simpa using hdeg)]
  · norm_num [ExportThread.preview_to_image_coords, pyint, min_def, max_def]

/-- C4 witness: the bounds theorem at the concrete scenario and the degenerate
branch at a zero-width image. -/
theorem C4_preview_to_image_bounds_witness :
    (0 ≤ (ExportThread.preview_to_image_coords (100, 100) (1600, 1200) (50, 50)).1 ∧
     (ExportThread.preview_to_image_coords (100, 100) (1600, 1200) (50, 50)).1
        ≤ (1600 : ℤ) - 50 ∧
     0 ≤ (ExportThread.preview_to_image_coords (100, 100) (1600, 1200) (50, 50)).2 ∧
     (ExportThread.preview_to_image_coords (100, 100) (1600, 1200) (50, 50)).2
        ≤ (1200 : ℤ) - 50) ∧
    ExportThread.preview_to_image_coords (7, 7) (0, 5) (1, 1) = (20, 20) :=
  ⟨C4_preview_to_image_bounds.1 (100, 100) 1600 1200 50 50 (by norm_num) (by norm_num)
      (by norm_num) (by norm_num),
   C4_preview_to_image_bounds.2.1 (7, 7) 0 5 1 1 (Or.inl rfl)⟩

/-- C1 (code_bug): the two coordinate-conversion paths agree exactly when the
live preview viewport is the 400×300 the export thread hard-codes; with the
preview label at 800×600 (its minimum is 400×300 and it resizes with the
window) the same drag position produces different full-image placements, so
preview and export diverge. -/
theorem C1_preview_export_coordinate_paths :
    (∀ (p : ℤ × ℤ) (image_size overlay_size : ℕ × ℕ),
        WatermarkApp.preview_to_image_coords (400, 300) p image_size overlay_size
          = ExportThread.preview_to_image_coords p image_size overlay_size) ∧
    WatermarkApp.preview_to_image_coords (800, 600) (100, 100) (1600, 1200) (50, 50)
      = (200, 200) ∧
    ExportThread.preview_to_image_coords (100, 100) (1600, 1200) (50, 50)
      = (400, 400) ∧
    WatermarkApp.preview_to_image_coords (800, 600) (100, 100) (1600, 1200) (50, 50)
      ≠ ExportThread.preview_to_image_coords (100, 100) (1600, 1200) (50, 50) := by
  have hA : WatermarkApp.preview_to_image_coords (800, 600) (100, 100) (1600, 1200) (50, 50)
      = (200, 200) := by
    norm_num [WatermarkApp.preview_to_image_coords, pyint, min_def, max_def]
  have hB : ExportThread.preview_to_image_coords (100, 100) (1600, 1200) (50, 50)
      = (400, 400) := by
    norm_num [ExportThread.preview_to_image_coords, pyint, min_def, max_def]
  refine ⟨?_, hA, hB, by rw [hA, hB]; decide⟩
  intro p image_size overlay_size
  unfold WatermarkApp.preview_to_image_coords ExportThread.preview_to_image_coords
  norm_num

/-- C5: for every batch (all-failure batches included) the export loop counts
every job exactly once — `success_count + error_count` equals the number of
input files — and the ordered error list holds exactly one
`"filename: message"` entry per failed job, failures being absorbed locally so
the recursion always reaches the end of the list. -/
theorem C5_export_aggregation (jobs : List Job) :
    (ExportThread.run jobs).success_count + (ExportThread.run jobs).error_count
        = jobs.length ∧
    (ExportThread.run jobs).errors = jobs.filterMap job_error_entry := by
  obtain ⟨h1, h2, h3⟩ := run_loop_spec jobs.length jobs 0
  exact ⟨h1, h2⟩

/-- C5 witness: the aggregation theorem at a concrete mixed batch (one
success, one decode failure). -/
theorem C5_export_aggregation_witness :
    (ExportThread.run [⟨"a.jpg", Except.ok ()⟩, ⟨"b.jpg", Except.error ("bad file")⟩]).success_count
        + (ExportThread.run [⟨"a.jpg", Except.ok ()⟩, ⟨"b.jpg", Except.error ("bad file")⟩]).error_count
        = 2 ∧
    (ExportThread.run [⟨"a.jpg", Except.ok ()⟩, ⟨"b.jpg", Except.error ("bad file")⟩]).errors
        = ["b.jpg: bad file"] :=
  C5_export_aggregation [⟨"a.jpg", Except.ok ()⟩, ⟨"b.jpg", Except.error ("bad file")⟩]

/-- C10 counterexample: in a one-job successful batch the progress event is
the first element of the trace, before the job's write — the notification is
emitted at the start of the attempt, not after it completes. -/
theorem C10_counterexample :
    (ExportThread.run [⟨"a.jpg", Except.ok ()⟩]).trace
      = [Event.progress 1 1 ("a.jpg"), Event.write ("a.jpg"),
         Event.finishedSignal 1 0 []] ∧
    (ExportThread.run [⟨"a.jpg", Except.ok ()⟩]).trace.head?
      = some (Event.progress 1 1 ("a.jpg")) :=
  ⟨rfl, rfl⟩

/-- C10 (amended): every batch emits exactly one progress notification per job
attempt, in input order, carrying the 1-based index, the batch size and the
job's filename, success or failure alike — but each notification is emitted at
the *start* of its attempt (it is the very first event of the batch for the
first job), not after the attempt completes. -/
theorem C10_progress_per_attempt :
    (∀ jobs : List Job,
        (ExportThread.run jobs).trace.filter Event.isProgress
          = expected_progress jobs.length 0 jobs) ∧
    (∀ (j : Job) (rest : List Job),
        (ExportThread.run (j :: rest)).trace.head?
          = some (Event.progress 1 (j :: rest).length j.filename)) := by
  constructor
  · intro jobs
    obtain ⟨h1, h2, h3⟩ := run_loop_spec jobs.length jobs 0
    show ((run_loop jobs.length 0 jobs).trace
        ++ [Event.finishedSignal _ _ _]).filter Event.isProgress = _
    rw [List.filter_append]
    simp [Event.isProgress, h3]
  · intro j rest
    cases hj : j.outcome <;> simp [ExportThread.run, run_loop, hj]

/-- C6: if some input file's canonical directory equals the canonical output
folder, pressing export yields a validation error before any per-job work — no
batch starts and no file is written. -/
theorem C6_no_export_into_source_dir (inputs : List InputFile) (out : String)
    (h : ∃ f ∈ inputs, f.dir = out) :
    (∃ msg, WatermarkApp.export_images inputs out
        = ExportOutcome.validationError msg) ∧
    written_files (WatermarkApp.export_images inputs out) = [] := by
  have hany : (inputs.any fun f => f.dir = out) = true := by
    rcases h with ⟨f, hf, hdir⟩
    simp only [List.any_eq_true, decide_eq_true_eq]
    exact ⟨f, hf, hdir⟩
  have key : ∃ msg, WatermarkApp.export_images inputs out
      = ExportOutcome.validationError msg := by
    unfold WatermarkApp.export_images
    by_cases h1 : inputs.isEmpty = true
    · rw [if_pos h1]; exact ⟨_, rfl⟩
    · rw [if_neg h1]
      by_cases h2 : out = ""
      · rw [if_pos h2]; exact ⟨_, rfl⟩
      · rw [if_neg h2, if_pos hany]; exact ⟨_, rfl⟩
  obtain ⟨msg, hmsg⟩ := key
  exact ⟨⟨msg, hmsg⟩, by rw [hmsg]; rfl⟩

/-- C6 witness: a one-file batch whose source directory is the chosen output
folder is rejected with zero writes. -/
theorem C6_no_export_into_source_dir_witness :
    (∃ msg, WatermarkApp.export_images [⟨"a.jpg", "/photos", Except.ok ()⟩] ("/photos")
        = ExportOutcome.validationError msg) ∧
    written_files
        (WatermarkApp.export_images [⟨"a.jpg", "/photos", Except.ok ()⟩] ("/photos"))
      = [] :=
  C6_no_export_into_source_dir _ _
    ⟨⟨"a.jpg", "/photos", Except.ok ()⟩, List.Mem.head _, rfl⟩

/-- C7: output names are the base name (input basename without extension) plus
the format-mapped, lower-cased extension, arranged by the naming rule: keep,
affix in front, or affix behind; target JPEG remaps `.png/.bmp/.tiff/.tif` to
`.jpg`, target PNG forces `.png`; and the concrete scenario — rule "add a
trailing affix" with `_wm` on `photo.png` at target JPEG — yields
`photo_wm.jpg`. -/
theorem C7_output_filename_rules (p pre suf : String) :
    generate_output_filename ("JPEG") ("原文件名") pre suf p
      = (splitext (basename p)).1 ++ map_ext ("JPEG") (lowerStr (splitext p).2) ∧
    generate_output_filename ("JPEG") ("添加前缀") pre suf p
      = pre ++ (splitext (basename p)).1 ++ map_ext ("JPEG") (lowerStr (splitext p).2) ∧
    generate_output_filename ("JPEG") ("添加后缀") pre suf p
      = (splitext (basename p)).1 ++ suf ++ map_ext ("JPEG") (lowerStr (splitext p).2) ∧
    generate_output_filename ("PNG") ("添加后缀") pre suf p
      = (splitext (basename p)).1 ++ suf ++ ".png" ∧
    (map_ext ("JPEG") (".png") = ".jpg" ∧ map_ext ("JPEG") (".bmp") = ".jpg" ∧
     map_ext ("JPEG") (".tiff") = ".jpg" ∧ map_ext ("JPEG") (".tif") = ".jpg" ∧
     map_ext ("JPEG") (".jpeg") = ".jpeg") ∧
    (∀ e, map_ext ("PNG") e = ".png") ∧
    generate_output_filename ("JPEG") ("添加后缀") ("") ("_wm") ("photo.png")
      = "photo_wm.jpg" := by
  refine ⟨?_, ?_, ?_, ?_, by decide, fun e => ?_, by decide⟩ <;>
    simp [generate_output_filename, map_ext]

/-- C8 counterexample: at the default opacity 70 the draw alpha is
`int(255*70/100) = 178` (truncation), while rounding as the claim states gives
`round(178.5) = 179`. -/
theorem C8_counterexample :
    (get_text_color (255, 255, 255, 180) 70).2.2.2 = 178 ∧
    round ((255 * 70 : ℚ) / 100) = 179 := by
  constructor
  · decide
  · norm_num [round_eq]

/-- C8 (amended): for every opacity percentage the final text draw alpha, in
both the preview and the export copy of the computation, is
`⌊255 * opacity / 100⌋` — truncation toward zero in 0–255 integer space, not
rounding — and stays at most 255 whenever the opacity is at most 100. -/
theorem C8_alpha_is_floor (base : ℕ × ℕ × ℕ × ℕ) (op : ℕ) :
    (get_text_color base op).2.2.2 = Nat.floor ((255 * (op : ℚ)) / 100) ∧
    ExportThread.text_color base op = get_text_color base op ∧
    (op ≤ 100 → (get_text_color base op).2.2.2 ≤ 255) := by
  refine ⟨?_, rfl, fun hop => ?_⟩
  · show 255 * op / 100 = Nat.floor ((255 * (op : ℚ)) / 100)
    rw [← Nat.floor_div_eq_div (α := ℚ) (255 * op) 100]
    congr 1
    push_cast
    ring
  · show 255 * op / 100 ≤ 255
    omega

/-- C8 witness: the truncation theorem at the default opacity 70. -/
theorem C8_alpha_is_floor_witness :
    (get_text_color (255, 255, 255, 180) 70).2.2.2 ≤ 255 :=
  (C8_alpha_is_floor (255, 255, 255, 180) 70).2.2 (by norm_num)
